import Mathlib

/-!
Shallow embedding of `Beispielprojekt.cpp`, the physics-and-collision core of
a small side-scrolling platform game.  `double` coordinates are modelled as
`ℚ` (all constants in the program are exactly representable), the C++ `int`
jump counter as `ℤ`, and the `unsigned long` millisecond timestamps as `ℕ`
(the clock is monotone, so the unsigned subtractions never wrap in a real
execution; theorems that depend on a subtraction carry the monotonicity
hypothesis explicitly).
-/

/-- The base class `Objekt`: an axis-aligned box with position and size.
`Platform` and `Obstacle` add only drawing data, so both are modelled as
plain boxes (an `Obstacle(x, y, size)` is the box `⟨x, y, size, size⟩`). -/
structure Objekt where
  x : ℚ
  y : ℚ
  width : ℚ
  height : ℚ
deriving DecidableEq, Repr

/-- The mutable fields of the C++ `Player` object (position and size are
inherited from `Objekt`; `world_width` / `world_height` pointers are passed
as arguments to `update` instead of being stored). -/
structure Player where
  x : ℚ
  y : ℚ
  width : ℚ
  height : ℚ
  velocity_x : ℚ
  velocity_y : ℚ
  on_ground : Bool
  jumps_available : ℤ
  spawn_x : ℚ
  spawn_y : ℚ
  jump_in_progress : Bool
deriving DecidableEq, Repr

/-- `Player::Player(x, y, ww, wh)`: size 50×50, zero velocity, airborne,
2 jumps, spawn point recorded at construction. -/
def mkPlayer (x y : ℚ) : Player :=
  { x := x, y := y, width := 50, height := 50, velocity_x := 0, velocity_y := 0,
    on_ground := false, jumps_available := 2, spawn_x := x, spawn_y := y,
    jump_in_progress := false }

/-- The four logical "is this key held" signals consumed by one tick. -/
structure Input where
  left_held : Bool
  right_held : Bool
  up_held : Bool
  down_held : Bool
deriving DecidableEq, Repr

def gravity : ℚ := 1/2

def jump_strength : ℚ := -10

def move_speed : ℚ := 3

/-- Lines 69–71: `velocity_x` is recomputed from scratch from the held keys. -/
def Player.applyHoriz (p : Player) (inp : Input) : Player :=
  { p with velocity_x :=
      (if inp.left_held then -move_speed else 0) +
      (if inp.right_held then move_speed else 0) }

/-- Lines 74–84, the double-jump logic: if `KB_UP` is held and
`jumps_available > 0 && !jump_in_progress`, jump (set `velocity_y`, clear
`on_ground`, decrement the budget, set the latch); if `KB_UP` is not held,
clear the latch. -/
def Player.jumpStep (p : Player) (up_held : Bool) : Player :=
  if up_held then
    if p.jumps_available > 0 ∧ p.jump_in_progress = false then
      { p with velocity_y := jump_strength, on_ground := false,
               jumps_available := p.jumps_available - 1, jump_in_progress := true }
    else p
  else
    { p with jump_in_progress := false }

/-- Line 86: `velocity_y += gravity`, unconditionally. -/
def Player.applyGravity (p : Player) : Player :=
  { p with velocity_y := p.velocity_y + gravity }

/-- The loop-carried variables of the platform loop (lines 89–105):
`next_y`, `velocity_y` and `on_any_platform`. -/
structure Collision where
  next_y : ℚ
  velocity_y : ℚ
  on_any_platform : Bool
deriving DecidableEq, Repr

/-- One iteration of the platform loop (lines 97–105).  `y`, `h`, `w` are the
player's pre-move vertical position and size, `next_x` the tentative
horizontal position; they are fixed across the loop. -/
def collideOne (y h w next_x : ℚ) (acc : Collision) (plat : Objekt) : Collision :=
  if (next_x + w > plat.x ∧ next_x < plat.x + plat.width) ∧
     (y + h ≤ plat.y ∧ acc.next_y + h ≥ plat.y) ∧
     acc.velocity_y ≥ 0 then
    { next_y := plat.y - h, velocity_y := 0, on_any_platform := true }
  else
    acc

/-- Lines 88–109: compute the tentative position, resolve landing against
every platform (static list plus the optional temp platform, in that order),
and commit `x`, `y`, `on_ground`. -/
def Player.moveAndLand (p : Player) (platforms : List Objekt)
    (temp_platform : Option Objekt) : Player :=
  let next_x := p.x + p.velocity_x
  let all_platforms := platforms ++ temp_platform.toList
  let c := all_platforms.foldl (collideOne p.y p.height p.width next_x)
    { next_y := p.y + p.velocity_y, velocity_y := p.velocity_y, on_any_platform := false }
  { p with x := next_x, y := c.next_y, velocity_y := c.velocity_y,
           on_ground := c.on_any_platform }

/-- Lines 111–119, the world borders: clamp `x` to `[0, world_width - width]`,
set a negative `y` to 0, and if the bottom would pass `world_height`, rest on
the world floor (zeroing `velocity_y` and forcing `on_ground`). -/
def Player.clampWorld (p : Player) (world_width world_height : ℚ) : Player :=
  let p := if p.x < 0 then { p with x := 0 } else p
  let p := if p.x + p.width > world_width then { p with x := world_width - p.width } else p
  let p := if p.y < 0 then { p with y := 0 } else p
  if p.y + p.height > world_height then
    { p with y := world_height - p.height, velocity_y := 0, on_ground := true }
  else p

/-- Lines 121–122: a grounded tick refills the jump budget. -/
def Player.refillJumps (p : Player) : Player :=
  if p.on_ground then { p with jumps_available := 2 } else p

/-- The player state entering the movement phase of a tick: horizontal
input applied, jump logic run, gravity added (lines 69–86). -/
def preMovePlayer (p : Player) (inp : Input) : Player :=
  ((p.applyHoriz inp).jumpStep inp.up_held).applyGravity

/-- `Player::update` (lines 60–123), as the composition of its phases in
source order: horizontal input, jump logic, gravity, movement + landing
resolution, world-border clamp, budget refill. -/
def Player.update (p : Player) (inp : Input) (platforms : List Objekt)
    (temp_platform : Option Objekt) (world_width world_height : ℚ) : Player :=
  (((preMovePlayer p inp).moveAndLand
      platforms temp_platform).clampWorld world_width world_height).refillJumps

/-- `Player::die` (lines 125–131): back to the spawn point, zero velocity,
full jump budget.  `on_ground` and the latch are left as they were. -/
def Player.die (p : Player) : Player :=
  { p with x := p.spawn_x, y := p.spawn_y, velocity_x := 0, velocity_y := 0,
           jumps_available := 2 }

/-- The player's current bounding box, as used by the hazard check. -/
def Player.toObjekt (p : Player) : Objekt :=
  { x := p.x, y := p.y, width := p.width, height := p.height }

/-- `rects_overlap` (lines 137–142): strict overlap on both axes. -/
def rects_overlap (a b : Objekt) : Bool :=
  decide (a.x < b.x + b.width ∧ a.x + a.width > b.x ∧
          a.y < b.y + b.height ∧ a.y + a.height > b.y)

def world_width : ℚ := 2000

def world_height : ℚ := 1000

def platform_cooldown : ℕ := 5000

/-- The seven static platforms pushed in the `GameWindow` constructor. -/
def levelPlatforms : List Objekt :=
  [⟨0, 950, 2000, 50⟩, ⟨300, 800, 250, 30⟩, ⟨700, 700, 250, 30⟩,
   ⟨1300, 850, 300, 25⟩, ⟨1700, 600, 200, 30⟩, ⟨1800, 400, 120, 30⟩,
   ⟨100, 650, 180, 20⟩]

/-- The four obstacles (`Obstacle(x, y, 40)` each) from the constructor. -/
def levelObstacles : List Objekt :=
  [⟨500, 920, 40, 40⟩, ⟨900, 670, 40, 40⟩, ⟨1350, 820, 40, 40⟩,
   ⟨1800, 570, 40, 40⟩]

/-- The mutable per-tick state of `GameWindow`: the player, the optional
temp platform with its two timestamps, and the function-local static flag
`down_pressed_last_frame` of `GameWindow::update`, made explicit. -/
structure GameWindow where
  player : Player
  temp_platform : Option Objekt
  temp_platform_created : ℕ
  temp_platform_last_placed : ℕ
  down_pressed_last_frame : Bool
deriving DecidableEq, Repr

/-- The state after the `GameWindow` constructor: player spawned at
(150, 100), no temp platform, both timestamps 0, edge flag clear. -/
def GameWindow.start : GameWindow :=
  { player := mkPlayer 150 100, temp_platform := none,
    temp_platform_created := 0, temp_platform_last_placed := 0,
    down_pressed_last_frame := false }

/-- Lines 180–200 of `GameWindow::update`: temp-platform creation, gated by
the rising edge of `KB_DOWN`, absence of a live temp platform, and the
5000 ms cooldown since the last placement. -/
def GameWindow.platformPhase (g : GameWindow) (now : ℕ) (inp : Input) : GameWindow :=
  if inp.down_held then
    if !g.down_pressed_last_frame then
      let on_cooldown := now - g.temp_platform_last_placed < platform_cooldown
      let g :=
        if g.temp_platform = none ∧ ¬on_cooldown then
          let w : ℚ := 100
          let h : ℚ := 15
          let platform_x := g.player.x + g.player.width / 2 - w / 2
          let platform_y := g.player.y + g.player.height + 2
          { g with temp_platform := some ⟨platform_x, platform_y, w, h⟩,
                   temp_platform_created := now,
                   temp_platform_last_placed := now }
        else g
      { g with down_pressed_last_frame := true }
    else { g with down_pressed_last_frame := true }
  else
    { g with down_pressed_last_frame := false }

/-- Lines 202–205: the temp platform is removed once strictly more than
5000 ms have passed since its creation. -/
def GameWindow.expiryPhase (g : GameWindow) (now : ℕ) : GameWindow :=
  if g.temp_platform ≠ none ∧ now - g.temp_platform_created > 5000 then
    { g with temp_platform := none }
  else g

/-- Lines 209–214: each obstacle is tested against the player's current box
(in order; a respawned player is tested against the remaining obstacles). -/
def hazardPhase (obstacles : List Objekt) (p : Player) : Player :=
  obstacles.foldl (fun p ob => if rects_overlap p.toObjekt ob then p.die else p) p

/-- `GameWindow::update` (lines 178–215): temp-platform lifecycle, then the
player update against the static platforms plus the temp platform, then the
obstacle (hazard) check. -/
def GameWindow.update (g : GameWindow) (now : ℕ) (inp : Input) : GameWindow :=
  let g := g.platformPhase now inp
  let g := g.expiryPhase now
  let pl := g.player.update inp levelPlatforms g.temp_platform world_width world_height
  let g := { g with player := pl }
  { g with player := hazardPhase levelObstacles g.player }

/-- The states the game can reach: the constructor's state, closed under
ticks (with an arbitrary clock reading and arbitrary input each tick). -/
inductive Reachable : GameWindow → Prop
  | start : Reachable GameWindow.start
  | step (g : GameWindow) (now : ℕ) (inp : Input) :
      Reachable g → Reachable (g.update now inp)

/-- The ticks in which the intermediate player state `q` (after input, jump
and gravity) satisfies the landing test of lines 98–100 against `plat`:
horizontal ranges overlap at the tentative `x`, the current bottom edge is
at or above the platform's top, and the tentative bottom edge (current
bottom plus vertical velocity) is at or below the platform's top. -/
def CanLandOn (q : Player) (plat : Objekt) : Prop :=
  (q.x + q.velocity_x + q.width > plat.x ∧ q.x + q.velocity_x < plat.x + plat.width) ∧
  q.y + q.height ≤ plat.y ∧ q.y + q.velocity_y + q.height ≥ plat.y

instance (q : Player) (plat : Objekt) : Decidable (CanLandOn q plat) := by
  unfold CanLandOn; infer_instance

/-- The player produced by a tick just before the hazard check: the
temp-platform phases followed by `Player::update` (lines 178–207). -/
def GameWindow.prePlayer (g : GameWindow) (now : ℕ) (inp : Input) : Player :=
  let g1 := (g.platformPhase now inp).expiryPhase now
  g1.player.update inp levelPlatforms g1.temp_platform world_width world_height

/-- The exact gate of temp-platform creation (lines 182–185): rising edge of
`KB_DOWN`, no live temp platform, and at least `platform_cooldown`
milliseconds elapsed since the last placement began. -/
def createCond (g : GameWindow) (now : ℕ) (inp : Input) : Prop :=
  inp.down_held = true ∧ g.down_pressed_last_frame = false ∧
  g.temp_platform = none ∧ platform_cooldown ≤ now - g.temp_platform_last_placed

instance (g : GameWindow) (now : ℕ) (inp : Input) : Decidable (createCond g now inp) := by
  unfold createCond; infer_instance

/-- No key held. -/
def noInput : Input := ⟨false, false, false, false⟩

/-- Only the jump key (`KB_UP`) held. -/
def jumpInput : Input := ⟨false, false, true, false⟩

/-- The single floor platform of the concrete free-fall scenario. -/
def scenarioPlatforms : List Objekt := [⟨0, 950, 2000, 50⟩]

/-- One tick of the concrete scenario: no input, the 2000×1000 world, the
floor platform only. -/
def scenarioStep (p : Player) : Player :=
  p.update noInput scenarioPlatforms none 2000 1000

/-- The scenario state after `n` ticks, starting from a freshly constructed
player at (150, 100). -/
def scenarioState (n : ℕ) : Player := scenarioStep^[n] (mkPlayer 150 100)

/-- Closed form of the scenario free-fall trajectory after `n` ticks
(valid while airborne, `n ≤ 56`). -/
def airPlayer (n : ℕ) : Player :=
  { x := 150, y := 100 + (n : ℚ) * ((n : ℚ) + 1) / 4, width := 50, height := 50,
    velocity_x := 0, velocity_y := (n : ℚ) / 2, on_ground := false,
    jumps_available := 2, spawn_x := 150, spawn_y := 100, jump_in_progress := false }

/-- The scenario resting state: bottom on the floor platform's top (y = 900,
bottom = 950), zero velocity, grounded, full jump budget. -/
def restPlayer : Player :=
  { x := 150, y := 900, width := 50, height := 50, velocity_x := 0,
    velocity_y := 0, on_ground := true, jumps_available := 2,
    spawn_x := 150, spawn_y := 100, jump_in_progress := false }

/-- A game state whose player rests on the floor platform (used to
instantiate grounded-start properties concretely). -/
def restWindow : GameWindow :=
  { player := restPlayer, temp_platform := none, temp_platform_created := 0,
    temp_platform_last_placed := 0, down_pressed_last_frame := false }

/-- Only the create-platform key (`KB_DOWN`) held. -/
def downInput : Input := ⟨false, false, false, true⟩

/-- The invariant carried through the platform loop of lines 97–105, for a
player `q` entering the movement phase: the tentative vertical position only
moves up (toward smaller y), and it is either still the free-fall tentative
position (no platform hit yet) or an exact snap onto a platform that
satisfies the landing test. -/
def CollideInv (q : Player) (all : List Objekt) (acc : Collision) : Prop :=
  acc.next_y ≤ q.y + q.velocity_y ∧
  (acc.on_any_platform = false →
    acc.next_y = q.y + q.velocity_y ∧ acc.velocity_y = q.velocity_y) ∧
  (acc.on_any_platform = true →
    acc.velocity_y = 0 ∧
    ∃ plat ∈ all, CanLandOn q plat ∧ acc.next_y = plat.y - q.height)

/-- Run a sequence of per-tick inputs from a given player state, in the
scenario world (floor platform, no temp platform). -/
def runTicks (p : Player) (inputs : List Input) : Player :=
  inputs.foldl (fun q i => q.update i scenarioPlatforms none 2000 1000) p

/-- The per-player part of the reachable-state invariant: constructor-fixed
size and spawn point, jump budget within bounds, bounding box inside the
world. -/
def PlayerInv (p : Player) : Prop :=
  p.width = 50 ∧ p.height = 50 ∧ p.spawn_x = 150 ∧ p.spawn_y = 100 ∧
  0 ≤ p.jumps_available ∧ p.jumps_available ≤ 2 ∧
  0 ≤ p.x ∧ p.x + p.width ≤ world_width ∧ 0 ≤ p.y ∧ p.y + p.height ≤ world_height

instance (p : Player) : Decidable (PlayerInv p) := by
  unfold PlayerInv; infer_instance

attribute [local semireducible] Rat.add Rat.mul Rat.sub Rat.inv

/-! ### Field-preservation lemmas for the phases of `Player::update` -/

theorem jumpStep_pres (p : Player) (u : Bool) :
    (p.jumpStep u).width = p.width ∧ (p.jumpStep u).height = p.height ∧
    (p.jumpStep u).spawn_x = p.spawn_x ∧ (p.jumpStep u).spawn_y = p.spawn_y ∧
    (p.jumpStep u).x = p.x ∧ (p.jumpStep u).y = p.y := by
  unfold Player.jumpStep
  split_ifs <;> exact ⟨rfl, rfl, rfl, rfl, rfl, rfl⟩

theorem clampWorld_pres (p : Player) (ww wh : ℚ) :
    (p.clampWorld ww wh).width = p.width ∧ (p.clampWorld ww wh).height = p.height ∧
    (p.clampWorld ww wh).spawn_x = p.spawn_x ∧ (p.clampWorld ww wh).spawn_y = p.spawn_y ∧
    (p.clampWorld ww wh).jumps_available = p.jumps_available ∧
    (p.clampWorld ww wh).jump_in_progress = p.jump_in_progress := by
  simp only [Player.clampWorld]
  split_ifs <;> exact ⟨rfl, rfl, rfl, rfl, rfl, rfl⟩

theorem refillJumps_pres (p : Player) :
    (p.refillJumps).width = p.width ∧ (p.refillJumps).height = p.height ∧
    (p.refillJumps).spawn_x = p.spawn_x ∧ (p.refillJumps).spawn_y = p.spawn_y ∧
    (p.refillJumps).x = p.x ∧ (p.refillJumps).y = p.y ∧
    (p.refillJumps).velocity_y = p.velocity_y ∧
    (p.refillJumps).on_ground = p.on_ground := by
  unfold Player.refillJumps
  split_ifs <;> exact ⟨rfl, rfl, rfl, rfl, rfl, rfl, rfl, rfl⟩

theorem preMovePlayer_pres (p : Player) (inp : Input) :
    (preMovePlayer p inp).width = p.width ∧ (preMovePlayer p inp).height = p.height ∧
    (preMovePlayer p inp).spawn_x = p.spawn_x ∧ (preMovePlayer p inp).spawn_y = p.spawn_y ∧
    (preMovePlayer p inp).x = p.x ∧ (preMovePlayer p inp).y = p.y := by
  unfold preMovePlayer Player.applyGravity Player.applyHoriz
  obtain ⟨h1, h2, h3, h4, h5, h6⟩ := jumpStep_pres
    { p with velocity_x :=
        (if inp.left_held then -move_speed else 0) +
        (if inp.right_held then move_speed else 0) } inp.up_held
  exact ⟨h1, h2, h3, h4, h5, h6⟩

theorem update_pres (p : Player) (inp : Input) (platforms : List Objekt)
    (temp : Option Objekt) (ww wh : ℚ) :
    (p.update inp platforms temp ww wh).width = p.width ∧
    (p.update inp platforms temp ww wh).height = p.height ∧
    (p.update inp platforms temp ww wh).spawn_x = p.spawn_x ∧
    (p.update inp platforms temp ww wh).spawn_y = p.spawn_y := by
  unfold Player.update
  obtain ⟨r1, r2, r3, r4, -, -, -, -⟩ := refillJumps_pres
    (((preMovePlayer p inp).moveAndLand platforms temp).clampWorld ww wh)
  obtain ⟨c1, c2, c3, c4, -, -⟩ := clampWorld_pres
    ((preMovePlayer p inp).moveAndLand platforms temp) ww wh
  obtain ⟨m1, m2, m3, m4, -, -⟩ := preMovePlayer_pres p inp
  exact ⟨r1.trans (c1.trans m1), r2.trans (c2.trans m2),
         r3.trans (c3.trans m3), r4.trans (c4.trans m4)⟩

/-! ### Jump-budget behaviour of the phases -/

theorem jumpStep_jumps (p : Player) (u : Bool) :
    (p.jumpStep u).jumps_available = p.jumps_available ∨
    (0 < p.jumps_available ∧
      (p.jumpStep u).jumps_available = p.jumps_available - 1) := by
  unfold Player.jumpStep
  split_ifs with h1 h2
  · exact Or.inr ⟨h2.1, rfl⟩
  · exact Or.inl rfl
  · exact Or.inl rfl

theorem refillJumps_jumps (p : Player) :
    (p.refillJumps).jumps_available = 2 ∨
    (p.refillJumps).jumps_available = p.jumps_available := by
  unfold Player.refillJumps
  split_ifs <;> [exact Or.inl rfl; exact Or.inr rfl]

theorem update_jumps_bounds (p : Player) (inp : Input) (platforms : List Objekt)
    (temp : Option Objekt) (ww wh : ℚ)
    (h0 : 0 ≤ p.jumps_available) (h2 : p.jumps_available ≤ 2) :
    0 ≤ (p.update inp platforms temp ww wh).jumps_available ∧
    (p.update inp platforms temp ww wh).jumps_available ≤ 2 := by
  have hm : ((preMovePlayer p inp).moveAndLand platforms temp).jumps_available
      = (preMovePlayer p inp).jumps_available := rfl
  have hg : (preMovePlayer p inp).jumps_available
      = ((p.applyHoriz inp).jumpStep inp.up_held).jumps_available := rfl
  have ha : (p.applyHoriz inp).jumps_available = p.jumps_available := rfl
  obtain ⟨-, -, -, -, hc, -⟩ := clampWorld_pres
    ((preMovePlayer p inp).moveAndLand platforms temp) ww wh
  have hj := jumpStep_jumps (p.applyHoriz inp) inp.up_held
  have hr := refillJumps_jumps
    ((((preMovePlayer p inp).moveAndLand platforms temp).clampWorld ww wh))
  unfold Player.update
  rw [ha] at hj
  rcases hr with hr | hr <;> rw [hr] <;>
    [omega; (rw [hc, hm, hg]; rcases hj with hj | hj <;> omega)]

/-! ### The hazard phase -/

theorem hazardPhase_cons (ob : Objekt) (rest : List Objekt) (p : Player) :
    hazardPhase (ob :: rest) p
      = hazardPhase rest (if rects_overlap p.toObjekt ob then p.die else p) := rfl

theorem hazardPhase_preserves (P : Player → Prop)
    (hdie : ∀ p, P p → P p.die) :
    ∀ (l : List Objekt) (p : Player), P p → P (hazardPhase l p) := by
  intro l
  induction l with
  | nil => intro p hp; exact hp
  | cons ob rest ih =>
    intro p hp
    rw [hazardPhase_cons]
    by_cases hov : rects_overlap p.toObjekt ob
    · rw [if_pos hov]; exact ih _ (hdie p hp)
    · rw [if_neg hov]; exact ih _ hp

theorem hazardPhase_dead (l : List Objekt) (p : Player)
    (h : ∃ ob ∈ l, rects_overlap p.toObjekt ob = true) :
    (hazardPhase l p).x = p.spawn_x ∧ (hazardPhase l p).y = p.spawn_y ∧
    (hazardPhase l p).velocity_x = 0 ∧ (hazardPhase l p).velocity_y = 0 ∧
    (hazardPhase l p).jumps_available = 2 := by
  induction l with
  | nil => obtain ⟨ob, hob, -⟩ := h; exact absurd hob (List.not_mem_nil ob)
  | cons ob rest ih =>
    rw [hazardPhase_cons]
    by_cases hov : rects_overlap p.toObjekt ob
    · rw [if_pos hov]
      have : ∀ q : Player, (q.x = p.spawn_x ∧ q.y = p.spawn_y ∧
          q.velocity_x = 0 ∧ q.velocity_y = 0 ∧ q.jumps_available = 2 ∧
          q.spawn_x = p.spawn_x ∧ q.spawn_y = p.spawn_y) →
          ((q.die).x = p.spawn_x ∧ (q.die).y = p.spawn_y ∧
          (q.die).velocity_x = 0 ∧ (q.die).velocity_y = 0 ∧
          (q.die).jumps_available = 2 ∧
          (q.die).spawn_x = p.spawn_x ∧ (q.die).spawn_y = p.spawn_y) := by
        intro q hq
        exact ⟨hq.2.2.2.2.2.1, hq.2.2.2.2.2.2, rfl, rfl, rfl,
          hq.2.2.2.2.2.1, hq.2.2.2.2.2.2⟩
      have base : ((p.die).x = p.spawn_x ∧ (p.die).y = p.spawn_y ∧
          (p.die).velocity_x = 0 ∧ (p.die).velocity_y = 0 ∧
          (p.die).jumps_available = 2 ∧
          (p.die).spawn_x = p.spawn_x ∧ (p.die).spawn_y = p.spawn_y) :=
        ⟨rfl, rfl, rfl, rfl, rfl, rfl, rfl⟩
      have := hazardPhase_preserves _ this rest p.die base
      exact ⟨this.1, this.2.1, this.2.2.1, this.2.2.2.1, this.2.2.2.2.1⟩
    · rw [if_neg hov]
      apply ih
      obtain ⟨ob2, hob2, hov2⟩ := h
      rcases List.mem_cons.mp hob2 with heq | hmem
      · exact absurd (heq ▸ hov2) hov
      · exact ⟨ob2, hmem, hov2⟩

/-! ### The world-border clamp -/

theorem clampWorld_bounds (p : Player) (ww wh : ℚ)
    (hw0 : 0 ≤ p.width) (hw : p.width ≤ ww) (hh0 : 0 ≤ p.height) (hh : p.height ≤ wh) :
    0 ≤ (p.clampWorld ww wh).x ∧
    (p.clampWorld ww wh).x + (p.clampWorld ww wh).width ≤ ww ∧
    0 ≤ (p.clampWorld ww wh).y ∧
    (p.clampWorld ww wh).y + (p.clampWorld ww wh).height ≤ wh := by
  simp only [Player.clampWorld]
  split_ifs <;> refine ⟨?_, ?_, ?_, ?_⟩ <;> (try simp) <;> linarith

theorem clampWorld_y_id (p : Player) (ww wh : ℚ)
    (hy : 0 ≤ p.y) (hyh : p.y + p.height ≤ wh) :
    (p.clampWorld ww wh).y = p.y ∧
    (p.clampWorld ww wh).velocity_y = p.velocity_y ∧
    (p.clampWorld ww wh).on_ground = p.on_ground := by
  simp only [Player.clampWorld]
  split_ifs <;> first
    | exact ⟨rfl, rfl, rfl⟩
    | (exfalso; (try simp_all) <;> linarith)

/-! ### The orchestrator phases around the player update -/

theorem platformPhase_player (g : GameWindow) (now : ℕ) (inp : Input) :
    (g.platformPhase now inp).player = g.player := by
  simp only [GameWindow.platformPhase]
  split_ifs <;> rfl

theorem expiryPhase_player (g : GameWindow) (now : ℕ) :
    (g.expiryPhase now).player = g.player := by
  simp only [GameWindow.expiryPhase]
  split_ifs <;> rfl

theorem gameUpdate_player (g : GameWindow) (now : ℕ) (inp : Input) :
    (g.update now inp).player = hazardPhase levelObstacles (g.prePlayer now inp) := rfl

theorem prePlayer_eq (g : GameWindow) (now : ℕ) (inp : Input) :
    g.prePlayer now inp = g.player.update inp levelPlatforms
      ((g.platformPhase now inp).expiryPhase now).temp_platform
      world_width world_height := by
  simp only [GameWindow.prePlayer]
  rw [expiryPhase_player, platformPhase_player]

/-! ### The reachable-state invariant -/

theorem playerInv_start : PlayerInv GameWindow.start.player := by
  unfold PlayerInv GameWindow.start mkPlayer world_width world_height
  norm_num

theorem playerInv_die (p : Player) (hp : PlayerInv p) : PlayerInv p.die := by
  obtain ⟨h1, h2, h3, h4, h5, h6, h7, h8, h9, h10⟩ := hp
  unfold PlayerInv Player.die world_width world_height at *
  refine ⟨h1, h2, h3, h4, by norm_num, by norm_num, ?_, ?_, ?_, ?_⟩ <;>
    simp [h1, h2, h3, h4] <;> norm_num

theorem playerInv_update (p : Player) (inp : Input) (platforms : List Objekt)
    (temp : Option Objekt) (hp : PlayerInv p) :
    PlayerInv (p.update inp platforms temp world_width world_height) := by
  obtain ⟨h1, h2, h3, h4, h5, h6, h7, h8, h9, h10⟩ := hp
  obtain ⟨u1, u2, u3, u4⟩ := update_pres p inp platforms temp world_width world_height
  obtain ⟨j1, j2⟩ := update_jumps_bounds p inp platforms temp world_width world_height h5 h6
  obtain ⟨m1, m2, m3, m4, -, -⟩ := preMovePlayer_pres p inp
  have hw : ((preMovePlayer p inp).moveAndLand platforms temp).width
      = p.width := m1
  have hh : ((preMovePlayer p inp).moveAndLand platforms temp).height
      = p.height := m2
  obtain ⟨b1, b2, b3, b4⟩ := clampWorld_bounds
    ((preMovePlayer p inp).moveAndLand platforms temp) world_width world_height
    (by rw [hw, h1]; norm_num) (by rw [hw, h1]; unfold world_width; norm_num)
    (by rw [hh, h2]; norm_num) (by rw [hh, h2]; unfold world_height; norm_num)
  obtain ⟨rw1, rh1, -, -, r5, r6, -, -⟩ := refillJumps_pres
    (((preMovePlayer p inp).moveAndLand platforms temp).clampWorld world_width world_height)
  refine ⟨u1.trans h1, u2.trans h2, u3.trans h3, u4.trans h4, j1, j2, ?_, ?_, ?_, ?_⟩
  · unfold Player.update
    rw [r5]; exact b1
  · unfold Player.update
    rw [r5, rw1]; exact b2
  · unfold Player.update
    rw [r6]; exact b3
  · unfold Player.update
    rw [r6, rh1]; exact b4

theorem playerInv_gameUpdate (g : GameWindow) (now : ℕ) (inp : Input)
    (hg : PlayerInv g.player) : PlayerInv (g.update now inp).player := by
  rw [gameUpdate_player, prePlayer_eq]
  exact hazardPhase_preserves PlayerInv playerInv_die levelObstacles _
    (playerInv_update g.player inp levelPlatforms _ hg)

theorem reachable_playerInv (g : GameWindow) (hg : Reachable g) :
    PlayerInv g.player := by
  induction hg with
  | start => exact playerInv_start
  | step g now inp _ ih => exact playerInv_gameUpdate g now inp ih

/-! ### Claim C9: the overlap predicate -/

/-- C9: `rects_overlap a b` returns true iff the boxes overlap strictly on
both axes (`a.x < b.x+b.w ∧ a.x+a.w > b.x ∧ a.y < b.y+b.h ∧ a.y+a.h > b.y`);
in particular boxes that merely touch along an edge do not overlap. -/
theorem rects_overlap_spec :
    (∀ a b : Objekt, rects_overlap a b = true ↔
      (a.x < b.x + b.width ∧ a.x + a.width > b.x ∧
       a.y < b.y + b.height ∧ a.y + a.height > b.y)) ∧
    (∀ a b : Objekt, a.x + a.width = b.x → rects_overlap a b = false) ∧
    (∀ a b : Objekt, a.y + a.height = b.y → rects_overlap a b = false) := by
  refine ⟨fun a b => ?_, fun a b h => ?_, fun a b h => ?_⟩
  · unfold rects_overlap
    exact decide_eq_true_iff
  · unfold rects_overlap
    rw [decide_eq_false_iff_not]
    rintro ⟨-, h2, -, -⟩
    linarith
  · unfold rects_overlap
    rw [decide_eq_false_iff_not]
    rintro ⟨-, -, -, h4⟩
    linarith

/-- Witness for C9 at concrete boxes: an overlapping pair and an
edge-touching pair. -/
theorem rects_overlap_spec_w :
    rects_overlap ⟨0, 0, 2, 2⟩ ⟨1, 1, 2, 2⟩ = true ∧
    rects_overlap ⟨0, 0, 1, 1⟩ ⟨1, 0, 1, 1⟩ = false :=
  ⟨(rects_overlap_spec.1 ⟨0, 0, 2, 2⟩ ⟨1, 1, 2, 2⟩).mpr (by norm_num),
   rects_overlap_spec.2.1 ⟨0, 0, 1, 1⟩ ⟨1, 0, 1, 1⟩ (by norm_num)⟩

/-! ### Claim C4: a grounded tick always ends with a full jump budget -/

/-- C4: after any tick (of any state, under any input and clock reading)
whose update leaves the grounded flag true, the jump budget is exactly 2. -/
theorem grounded_full_budget (g : GameWindow) (now : ℕ) (inp : Input)
    (h : (g.update now inp).player.on_ground = true) :
    (g.update now inp).player.jumps_available = 2 := by
  have base : ∀ r : Player,
      (r.refillJumps.on_ground = true → r.refillJumps.jumps_available = 2) := by
    intro r
    unfold Player.refillJumps
    split_ifs with hog
    · intro _; rfl
    · intro hc; exact absurd hc hog
  have pres := hazardPhase_preserves
    (fun p => p.on_ground = true → p.jumps_available = 2)
    (fun p _ => fun _ => rfl) levelObstacles
  rw [gameUpdate_player] at h ⊢
  exact pres _ (base _) h

set_option maxRecDepth 8000 in
/-- Witness for C4: a tick from the resting state ends grounded, so the
budget is 2. -/
theorem grounded_full_budget_w :
    (restWindow.update 0 noInput).player.jumps_available = 2 :=
  grounded_full_budget restWindow 0 noInput (by decide)

/-! ### Claim C3: the jump budget is always within [0, 2] -/

/-- C3: in every reachable game state the jump budget satisfies
`0 ≤ budget ≤ 2`: it starts at 2, and every mutation path (the guarded
decrement, the grounding reset, the respawn reset) preserves the bounds. -/
theorem jump_budget_bounds (g : GameWindow) (hg : Reachable g) :
    0 ≤ g.player.jumps_available ∧ g.player.jumps_available ≤ 2 := by
  obtain ⟨-, -, -, -, h5, h6, -, -, -, -⟩ := reachable_playerInv g hg
  exact ⟨h5, h6⟩

/-- Witness for C3 at the initial state. -/
theorem jump_budget_bounds_w :
    0 ≤ GameWindow.start.player.jumps_available ∧
    GameWindow.start.player.jumps_available ≤ 2 :=
  jump_budget_bounds GameWindow.start Reachable.start

/-! ### Claim C2: the actor's box stays inside the world -/

/-- C2: in every reachable game state (initially, and after every tick
under any inputs), the actor's 50×50 bounding box is fully contained in the
2000×1000 world: `0 ≤ x ≤ world_width − width` and
`0 ≤ y ≤ world_height − height`. -/
theorem world_bounds_inv (g : GameWindow) (hg : Reachable g) :
    g.player.width = 50 ∧ g.player.height = 50 ∧
    0 ≤ g.player.x ∧ g.player.x ≤ world_width - g.player.width ∧
    0 ≤ g.player.y ∧ g.player.y ≤ world_height - g.player.height := by
  obtain ⟨h1, h2, -, -, -, -, h7, h8, h9, h10⟩ := reachable_playerInv g hg
  exact ⟨h1, h2, h7, by linarith, h9, by linarith⟩

/-- Witness for C2 at the initial state. -/
theorem world_bounds_inv_w :
    GameWindow.start.player.width = 50 ∧ GameWindow.start.player.height = 50 ∧
    0 ≤ GameWindow.start.player.x ∧
    GameWindow.start.player.x ≤ world_width - GameWindow.start.player.width ∧
    0 ≤ GameWindow.start.player.y ∧
    GameWindow.start.player.y ≤ world_height - GameWindow.start.player.height :=
  world_bounds_inv GameWindow.start Reachable.start

/-! ### Claim C6: hazard overlap respawns the actor within the same tick -/

/-- C6: if, at the hazard-check phase of a tick, the actor's bounding box
strictly overlaps any obstacle, then at the end of that same tick the actor
is at its spawn point, both velocity components are 0, and the jump budget
is 2. -/
theorem hazard_respawn (g : GameWindow) (now : ℕ) (inp : Input)
    (h : ∃ ob ∈ levelObstacles,
        rects_overlap (g.prePlayer now inp).toObjekt ob = true) :
    (g.update now inp).player.x = g.player.spawn_x ∧
    (g.update now inp).player.y = g.player.spawn_y ∧
    (g.update now inp).player.velocity_x = 0 ∧
    (g.update now inp).player.velocity_y = 0 ∧
    (g.update now inp).player.jumps_available = 2 := by
  have hd := hazardPhase_dead levelObstacles (g.prePlayer now inp) h
  have hsx : (g.prePlayer now inp).spawn_x = g.player.spawn_x := by
    rw [prePlayer_eq]
    exact (update_pres g.player inp levelPlatforms
      ((g.platformPhase now inp).expiryPhase now).temp_platform
      world_width world_height).2.2.1
  have hsy : (g.prePlayer now inp).spawn_y = g.player.spawn_y := by
    rw [prePlayer_eq]
    exact (update_pres g.player inp levelPlatforms
      ((g.platformPhase now inp).expiryPhase now).temp_platform
      world_width world_height).2.2.2
  rw [gameUpdate_player]
  exact ⟨hd.1.trans hsx, hd.2.1.trans hsy, hd.2.2.1, hd.2.2.2.1, hd.2.2.2.2⟩

set_option maxRecDepth 8000 in
/-- Witness for C6: a player falling just above the first obstacle overlaps
it after the movement phase and is respawned that same tick. -/
theorem hazard_respawn_w :
    ((GameWindow.mk ⟨500, 880, 50, 50, 0, 0, false, 2, 150, 100, false⟩
        none 0 0 false).update 0 noInput).player.x = 150 ∧
    ((GameWindow.mk ⟨500, 880, 50, 50, 0, 0, false, 2, 150, 100, false⟩
        none 0 0 false).update 0 noInput).player.y = 100 ∧
    ((GameWindow.mk ⟨500, 880, 50, 50, 0, 0, false, 2, 150, 100, false⟩
        none 0 0 false).update 0 noInput).player.velocity_x = 0 ∧
    ((GameWindow.mk ⟨500, 880, 50, 50, 0, 0, false, 2, 150, 100, false⟩
        none 0 0 false).update 0 noInput).player.velocity_y = 0 ∧
    ((GameWindow.mk ⟨500, 880, 50, 50, 0, 0, false, 2, 150, 100, false⟩
        none 0 0 false).update 0 noInput).player.jumps_available = 2 :=
  hazard_respawn (GameWindow.mk ⟨500, 880, 50, 50, 0, 0, false, 2, 150, 100, false⟩
    none 0 0 false) 0 noInput (by decide)

/-! ### Claims C7/C8: the temp-platform lifecycle -/

theorem gameUpdate_temp (g : GameWindow) (now : ℕ) (inp : Input) :
    (g.update now inp).temp_platform
      = ((g.platformPhase now inp).expiryPhase now).temp_platform ∧
    (g.update now inp).temp_platform_created
      = ((g.platformPhase now inp).expiryPhase now).temp_platform_created ∧
    (g.update now inp).temp_platform_last_placed
      = ((g.platformPhase now inp).expiryPhase now).temp_platform_last_placed :=
  ⟨rfl, rfl, rfl⟩

theorem expiryPhase_temp (g : GameWindow) (now : ℕ) :
    (g.expiryPhase now).temp_platform
      = (if g.temp_platform ≠ none ∧ now - g.temp_platform_created > 5000
         then none else g.temp_platform) ∧
    (g.expiryPhase now).temp_platform_created = g.temp_platform_created ∧
    (g.expiryPhase now).temp_platform_last_placed = g.temp_platform_last_placed := by
  unfold GameWindow.expiryPhase
  split_ifs with h
  · exact ⟨rfl, rfl, rfl⟩
  · exact ⟨rfl, rfl, rfl⟩

/-- When a temp platform is alive, the creation branch is skipped no matter
what the input edge is: `platformPhase` only updates the edge flag. -/
theorem platformPhase_alive (g : GameWindow) (now : ℕ) (inp : Input) (r : Objekt)
    (halive : g.temp_platform = some r) :
    (g.platformPhase now inp).temp_platform = g.temp_platform ∧
    (g.platformPhase now inp).temp_platform_created = g.temp_platform_created ∧
    (g.platformPhase now inp).temp_platform_last_placed
      = g.temp_platform_last_placed := by
  unfold GameWindow.platformPhase
  split_ifs <;> first
    | exact ⟨rfl, rfl, rfl⟩
    | simp_all

/-- C7: while a transient platform exists, a create-action rising edge is a
silent no-op within that tick: the tick creates no new platform and does not
touch either timestamp; the platform survives the tick unchanged unless its
own lifetime (measured from its unchanged creation timestamp) has expired. -/
theorem temp_platform_exclusive (g : GameWindow) (now : ℕ) (inp : Input) (r : Objekt)
    (halive : g.temp_platform = some r)
    (hheld : inp.down_held = true)
    (hedge : g.down_pressed_last_frame = false) :
    (g.update now inp).temp_platform_created = g.temp_platform_created ∧
    (g.update now inp).temp_platform_last_placed = g.temp_platform_last_placed ∧
    (g.update now inp).temp_platform
      = (if now - g.temp_platform_created > 5000 then none else some r) := by
  obtain ⟨t1, t2, t3⟩ := gameUpdate_temp g now inp
  obtain ⟨p1, p2, p3⟩ := platformPhase_alive g now inp r halive
  obtain ⟨e1, e2, e3⟩ := expiryPhase_temp (g.platformPhase now inp) now
  refine ⟨t2.trans (e2.trans p2), t3.trans (e3.trans p3), t1.trans ?_⟩
  rw [e1, p1, p2, halive]
  by_cases hx : now - g.temp_platform_created > 5000
  · rw [if_pos ⟨by simp, hx⟩, if_pos hx]
  · rw [if_neg (fun h => hx h.2), if_neg hx]

/-- Witness for C7: with a live platform created at t=100, a rising-edge
create press at t=200 changes nothing. -/
theorem temp_platform_exclusive_w :
    ((GameWindow.mk restPlayer (some ⟨0, 0, 100, 15⟩) 100 100 false).update
        200 downInput).temp_platform_created = 100 ∧
    ((GameWindow.mk restPlayer (some ⟨0, 0, 100, 15⟩) 100 100 false).update
        200 downInput).temp_platform_last_placed = 100 ∧
    ((GameWindow.mk restPlayer (some ⟨0, 0, 100, 15⟩) 100 100 false).update
        200 downInput).temp_platform
      = (if 200 - 100 > 5000 then none else some ⟨0, 0, 100, 15⟩) :=
  temp_platform_exclusive
    (GameWindow.mk restPlayer (some ⟨0, 0, 100, 15⟩) 100 100 false)
    200 downInput ⟨0, 0, 100, 15⟩ rfl rfl rfl

theorem platformPhase_creates (g : GameWindow) (now : ℕ) (inp : Input)
    (h : createCond g now inp) :
    g.platformPhase now inp = { g with
      temp_platform := some ⟨g.player.x + g.player.width / 2 - 100 / 2,
        g.player.y + g.player.height + 2, 100, 15⟩,
      temp_platform_created := now, temp_platform_last_placed := now,
      down_pressed_last_frame := true } := by
  obtain ⟨h1, h2, h3, h4⟩ := h
  have hncool : ¬(now - g.temp_platform_last_placed < platform_cooldown) :=
    not_lt.mpr h4
  unfold GameWindow.platformPhase
  rw [h1, h2]
  simp [h3, hncool]

theorem platformPhase_nocreate (g : GameWindow) (now : ℕ) (inp : Input)
    (h : ¬createCond g now inp) :
    (g.platformPhase now inp).temp_platform = g.temp_platform ∧
    (g.platformPhase now inp).temp_platform_created = g.temp_platform_created ∧
    (g.platformPhase now inp).temp_platform_last_placed
      = g.temp_platform_last_placed := by
  simp only [GameWindow.platformPhase]
  split_ifs with h1 h2 h3
  · refine absurd ⟨h1, by simpa using h2, h3.1, not_lt.mp h3.2⟩ h
  · exact ⟨rfl, rfl, rfl⟩
  · exact ⟨rfl, rfl, rfl⟩
  · exact ⟨rfl, rfl, rfl⟩

/-- C8: a temp platform is created exactly when the create key shows a
rising edge, no temp platform is alive, and at least 5000 ms (the cooldown)
have elapsed since the last placement began.  On creation the platform is
the 100×15 box centered under the actor, immediately below its feet, and
both timestamps are set to the current time; otherwise both timestamps are
untouched and the temp platform merely survives or expires. -/
theorem temp_platform_creation (g : GameWindow) (now : ℕ) (inp : Input)
    (hmono : g.temp_platform_last_placed ≤ now) :
    (createCond g now inp →
      (g.update now inp).temp_platform
        = some ⟨g.player.x + g.player.width / 2 - 100 / 2,
                g.player.y + g.player.height + 2, 100, 15⟩ ∧
      (g.update now inp).temp_platform_created = now ∧
      (g.update now inp).temp_platform_last_placed = now) ∧
    (¬createCond g now inp →
      (g.update now inp).temp_platform_created = g.temp_platform_created ∧
      (g.update now inp).temp_platform_last_placed = g.temp_platform_last_placed ∧
      (g.update now inp).temp_platform
        = (if g.temp_platform ≠ none ∧ now - g.temp_platform_created > 5000
           then none else g.temp_platform)) := by
  obtain ⟨t1, t2, t3⟩ := gameUpdate_temp g now inp
  constructor
  · intro hc
    rw [platformPhase_creates g now inp hc] at t1 t2 t3
    obtain ⟨e1, e2, e3⟩ := expiryPhase_temp
      { g with
        temp_platform := some ⟨g.player.x + g.player.width / 2 - 100 / 2,
          g.player.y + g.player.height + 2, 100, 15⟩,
        temp_platform_created := now, temp_platform_last_placed := now,
        down_pressed_last_frame := true } now
    refine ⟨t1.trans (e1.trans ?_), t2.trans e2, t3.trans e3⟩
    rw [if_neg]
    rintro ⟨-, hgt⟩
    simp only [Nat.sub_self] at hgt
    omega
  · intro hc
    obtain ⟨p1, p2, p3⟩ := platformPhase_nocreate g now inp hc
    obtain ⟨e1, e2, e3⟩ := expiryPhase_temp (g.platformPhase now inp) now
    exact ⟨t2.trans (e2.trans p2), t3.trans (e3.trans p3),
      t1.trans (e1.trans (by rw [p1, p2]))⟩

/-- Witness for C8: from the initial state, a rising-edge create press at
t = 6000 ms creates the platform under the spawned actor and stamps both
timestamps. -/
theorem temp_platform_creation_w :
    (GameWindow.start.update 6000 downInput).temp_platform
      = some ⟨GameWindow.start.player.x + GameWindow.start.player.width / 2 - 100 / 2,
              GameWindow.start.player.y + GameWindow.start.player.height + 2, 100, 15⟩ ∧
    (GameWindow.start.update 6000 downInput).temp_platform_created = 6000 ∧
    (GameWindow.start.update 6000 downInput).temp_platform_last_placed = 6000 :=
  (temp_platform_creation GameWindow.start 6000 downInput (by decide)).1 (by decide)

/-! ### Claim C10: the ceiling clamp is asymmetric to the floor clamp -/

theorem clampWorld_neg_y (p : Player) (ww wh : ℚ)
    (hy : p.y < 0) (hh : p.height ≤ wh) :
    (p.clampWorld ww wh).y = 0 ∧
    (p.clampWorld ww wh).velocity_y = p.velocity_y ∧
    (p.clampWorld ww wh).on_ground = p.on_ground := by
  simp only [Player.clampWorld]
  split_ifs <;> first
    | exact ⟨rfl, rfl, rfl⟩
    | (exfalso; (try simp_all) <;> linarith)

theorem clampWorld_bottom (p : Player) (ww wh : ℚ)
    (hy : 0 ≤ p.y) (hb : p.y + p.height > wh) :
    (p.clampWorld ww wh).y = wh - p.height ∧
    (p.clampWorld ww wh).velocity_y = 0 ∧
    (p.clampWorld ww wh).on_ground = true := by
  simp only [Player.clampWorld]
  split_ifs <;> first
    | exact ⟨rfl, rfl, rfl⟩
    | (exfalso; (try simp_all) <;> linarith)

/-- C10: if the post-collision tentative `y` of a tick is negative, the
update sets `y` to exactly 0 but leaves `velocity_y` and the grounded flag
exactly as the collision phase left them; only the bottom-of-world clamp
(second conjunct) zeroes `velocity_y` and forces grounded true. -/
theorem ceiling_clamp_asymmetric (p : Player) (inp : Input)
    (platforms : List Objekt) (temp : Option Objekt) (ww wh : ℚ) :
    (((preMovePlayer p inp).moveAndLand platforms temp).y < 0 →
     ((preMovePlayer p inp).moveAndLand platforms temp).height ≤ wh →
      (p.update inp platforms temp ww wh).y = 0 ∧
      (p.update inp platforms temp ww wh).velocity_y
        = ((preMovePlayer p inp).moveAndLand platforms temp).velocity_y ∧
      (p.update inp platforms temp ww wh).on_ground
        = ((preMovePlayer p inp).moveAndLand platforms temp).on_ground) ∧
    (0 ≤ ((preMovePlayer p inp).moveAndLand platforms temp).y →
     ((preMovePlayer p inp).moveAndLand platforms temp).y
        + ((preMovePlayer p inp).moveAndLand platforms temp).height > wh →
      (p.update inp platforms temp ww wh).y
        = wh - ((preMovePlayer p inp).moveAndLand platforms temp).height ∧
      (p.update inp platforms temp ww wh).velocity_y = 0 ∧
      (p.update inp platforms temp ww wh).on_ground = true) := by
  obtain ⟨-, -, -, -, -, r6, r7, r8⟩ := refillJumps_pres
    (((preMovePlayer p inp).moveAndLand platforms temp).clampWorld ww wh)
  constructor
  · intro h1 h2
    obtain ⟨c1, c2, c3⟩ := clampWorld_neg_y
      ((preMovePlayer p inp).moveAndLand platforms temp) ww wh h1 h2
    exact ⟨r6.trans c1, r7.trans c2, r8.trans c3⟩
  · intro h1 h2
    obtain ⟨c1, c2, c3⟩ := clampWorld_bottom
      ((preMovePlayer p inp).moveAndLand platforms temp) ww wh h1 h2
    exact ⟨r6.trans c1, r7.trans c2, r8.trans c3⟩

set_option maxRecDepth 8000 in
/-- Witness for C10: a fast upward mover whose tentative `y` is negative is
pinned to `y = 0` with its upward velocity and airborne flag intact. -/
theorem ceiling_clamp_asymmetric_w :
    ((Player.mk 150 10 50 50 0 (-20) false 0 150 100 false).update
        noInput [] none 2000 1000).y = 0 ∧
    ((Player.mk 150 10 50 50 0 (-20) false 0 150 100 false).update
        noInput [] none 2000 1000).velocity_y
      = ((preMovePlayer (Player.mk 150 10 50 50 0 (-20) false 0 150 100 false)
          noInput).moveAndLand [] none).velocity_y ∧
    ((Player.mk 150 10 50 50 0 (-20) false 0 150 100 false).update
        noInput [] none 2000 1000).on_ground
      = ((preMovePlayer (Player.mk 150 10 50 50 0 (-20) false 0 150 100 false)
          noInput).moveAndLand [] none).on_ground :=
  (ceiling_clamp_asymmetric (Player.mk 150 10 50 50 0 (-20) false 0 150 100 false)
    noInput [] none 2000 1000).1 (by decide) (by decide)

/-! ### Claim C5: edge-triggered double jump -/

set_option maxRecDepth 8000 in
/-- C5: the jump is edge-triggered with a budget cap.  With the key held, a
positive budget and a clear latch, the jump step sets `velocity_y` to the
fixed jump value, consumes one budget unit and sets the latch; with budget 0
or latch set it does nothing; releasing the key only clears the latch.
Concretely, starting grounded with budget 2, two presses separated by a
release each consume one unit (velocity `-10` plus the same-tick gravity),
a third press with budget 0 leaves velocity to gravity alone, and holding
the key over two ticks consumes only one unit. -/
theorem double_jump_cap :
    (∀ p : Player, 0 < p.jumps_available → p.jump_in_progress = false →
      p.jumpStep true = { p with velocity_y := jump_strength, on_ground := false,
                                 jumps_available := p.jumps_available - 1,
                                 jump_in_progress := true }) ∧
    (∀ p : Player, p.jumps_available ≤ 0 ∨ p.jump_in_progress = true →
      p.jumpStep true = p) ∧
    (∀ p : Player, p.jumpStep false = { p with jump_in_progress := false }) ∧
    (runTicks restPlayer [jumpInput]).jumps_available = 1 ∧
    (runTicks restPlayer [jumpInput]).velocity_y = jump_strength + gravity ∧
    (runTicks restPlayer [jumpInput, noInput, jumpInput]).jumps_available = 0 ∧
    (runTicks restPlayer [jumpInput, noInput, jumpInput]).velocity_y
      = jump_strength + gravity ∧
    (runTicks restPlayer [jumpInput, noInput, jumpInput, noInput, jumpInput]).velocity_y
      = (runTicks restPlayer [jumpInput, noInput, jumpInput, noInput]).velocity_y
        + gravity ∧
    (runTicks restPlayer [jumpInput, noInput, jumpInput, noInput, jumpInput]).jumps_available
      = 0 ∧
    (runTicks restPlayer [jumpInput, jumpInput]).jumps_available = 1 := by
  refine ⟨fun p h1 h2 => ?_, fun p h => ?_, fun p => rfl, ?_, ?_, ?_, ?_, ?_, ?_, ?_⟩
  · unfold Player.jumpStep
    rw [if_pos rfl, if_pos ⟨h1, h2⟩]
  · unfold Player.jumpStep
    rw [if_pos rfl, if_neg]
    rintro ⟨hgt, hlatch⟩
    rcases h with h | h
    · omega
    · rw [h] at hlatch; cases hlatch
  · decide
  · decide
  · decide
  · decide
  · decide
  · decide
  · decide

/-- Witness for C5: the guarded jump branch applied at a concrete airborne
state with budget 1 and a clear latch. -/
theorem double_jump_cap_w :
    (Player.mk 0 500 50 50 0 3 false 1 0 0 false).jumpStep true
      = Player.mk 0 500 50 50 0 jump_strength false 0 0 0 true := by
  have h := double_jump_cap.1 (Player.mk 0 500 50 50 0 3 false 1 0 0 false)
    (by decide) (by decide)
  exact h.trans (by decide)

/-! ### Claim C1: landing resolution of the platform loop -/

theorem collideOne_mono (y h w nx : ℚ) (acc : Collision) (plat : Objekt)
    (hacc : acc.on_any_platform = true) :
    (collideOne y h w nx acc plat).on_any_platform = true := by
  unfold collideOne
  split_ifs
  · rfl
  · exact hacc

theorem collide_fold_mono (y h w nx : ℚ) (l : List Objekt) :
    ∀ acc : Collision, acc.on_any_platform = true →
      (l.foldl (collideOne y h w nx) acc).on_any_platform = true := by
  induction l with
  | nil => exact fun acc hacc => hacc
  | cons a rest ih =>
    intro acc hacc
    rw [List.foldl_cons]
    exact ih _ (collideOne_mono y h w nx acc a hacc)

theorem collideOne_inv (q : Player) (all : List Objekt) (acc : Collision)
    (plat : Objekt) (hmem : plat ∈ all) (hinv : CollideInv q all acc) :
    CollideInv q all
      (collideOne q.y q.height q.width (q.x + q.velocity_x) acc plat) := by
  obtain ⟨i1, i2, i3⟩ := hinv
  unfold collideOne
  split_ifs with hc
  · obtain ⟨hx, ⟨hy1, hy2⟩, hvy⟩ := hc
    refine ⟨?_, ?_, ?_⟩
    · show plat.y - q.height ≤ q.y + q.velocity_y
      linarith
    · intro hfalse
      exact absurd hfalse (by simp)
    · intro _
      exact ⟨rfl, plat, hmem, ⟨hx, hy1, by linarith⟩, rfl⟩
  · exact ⟨i1, i2, i3⟩

theorem collide_fold_inv (q : Player) (all : List Objekt) :
    ∀ l : List Objekt, (∀ x ∈ l, x ∈ all) → ∀ acc : Collision,
      CollideInv q all acc →
      CollideInv q all
        (l.foldl (collideOne q.y q.height q.width (q.x + q.velocity_x)) acc) := by
  intro l
  induction l with
  | nil => exact fun _ acc h => h
  | cons a rest ih =>
    intro hsub acc h
    rw [List.foldl_cons]
    exact ih (fun x hx => hsub x (List.mem_cons_of_mem a hx)) _
      (collideOne_inv q all acc a (hsub a (List.mem_cons_self a rest)) h)

theorem collide_fold_hit (q : Player) (all : List Objekt) (hvy : 0 ≤ q.velocity_y) :
    ∀ l : List Objekt, (∀ x ∈ l, x ∈ all) → ∀ acc : Collision,
      CollideInv q all acc → (∃ plat ∈ l, CanLandOn q plat) →
      (l.foldl (collideOne q.y q.height q.width (q.x + q.velocity_x))
        acc).on_any_platform = true := by
  intro l
  induction l with
  | nil =>
    rintro _ acc _ ⟨plat, hplat, -⟩
    exact absurd hplat (List.not_mem_nil plat)
  | cons a rest ih =>
    rintro hsub acc hinv ⟨plat, hplat, hcan⟩
    rw [List.foldl_cons]
    by_cases hb : acc.on_any_platform = true
    · exact collide_fold_mono _ _ _ _ rest _ (collideOne_mono _ _ _ _ acc a hb)
    · have hb' : acc.on_any_platform = false := by
        cases hx : acc.on_any_platform
        · rfl
        · exact absurd hx hb
      obtain ⟨hny, hvyacc⟩ := hinv.2.1 hb'
      rcases List.mem_cons.mp hplat with heq | hmem
      · subst heq
        have hfire : collideOne q.y q.height q.width (q.x + q.velocity_x) acc plat
            = ⟨plat.y - q.height, 0, true⟩ := by
          unfold collideOne
          rw [if_pos]
          exact ⟨hcan.1, ⟨hcan.2.1, by rw [hny]; exact hcan.2.2⟩,
            by rw [hvyacc]; exact hvy⟩
        rw [hfire]
        exact collide_fold_mono _ _ _ _ rest _ rfl
      · exact ih (fun x hx => hsub x (List.mem_cons_of_mem a hx)) _
          (collideOne_inv q all acc a (hsub a (List.mem_cons_self a rest)) hinv)
          ⟨plat, hmem, hcan⟩

theorem moveAndLand_lands (q : Player) (platforms : List Objekt)
    (temp : Option Objekt) (hvy : 0 ≤ q.velocity_y)
    (hex : ∃ plat ∈ platforms ++ temp.toList, CanLandOn q plat) :
    (q.moveAndLand platforms temp).velocity_y = 0 ∧
    (q.moveAndLand platforms temp).on_ground = true ∧
    ∃ plat ∈ platforms ++ temp.toList, CanLandOn q plat ∧
      (q.moveAndLand platforms temp).y + q.height = plat.y := by
  have base : CollideInv q (platforms ++ temp.toList)
      ⟨q.y + q.velocity_y, q.velocity_y, false⟩ :=
    ⟨le_refl _, fun _ => ⟨rfl, rfl⟩, fun hc => absurd hc (by simp)⟩
  have hfold := collide_fold_inv q (platforms ++ temp.toList)
    (platforms ++ temp.toList) (fun x hx => hx) _ base
  have hon := collide_fold_hit q (platforms ++ temp.toList) hvy
    (platforms ++ temp.toList) (fun x hx => hx) _ base hex
  obtain ⟨ha, plat, hmem, hcan, hny⟩ := hfold.2.2 hon
  refine ⟨ha, hon, plat, hmem, hcan, ?_⟩
  have h1 : (q.moveAndLand platforms temp).y = plat.y - q.height := hny
  rw [h1]
  ring

theorem scenarioStep_freefall (y vy : ℚ) (hvy : 0 ≤ vy) (hy0 : 0 ≤ y)
    (hnohit : y + vy + 1/2 + 50 < 950) :
    scenarioStep (Player.mk 150 y 50 50 0 vy false 2 150 100 false)
      = Player.mk 150 (y + (vy + 1/2)) 50 50 0 (vy + 1/2) false 2 150 100 false := by
  simp only [scenarioStep, Player.update, preMovePlayer, Player.applyHoriz,
    Player.jumpStep, Player.applyGravity, Player.moveAndLand, Player.clampWorld,
    Player.refillJumps, noInput, scenarioPlatforms, collideOne, gravity,
    move_speed, jump_strength, List.foldl_cons, List.foldl_nil,
    Option.toList_none, List.append_nil]
  norm_num
  split_ifs <;> first
    | (exfalso; simp_all <;> linarith)
    | simp_all


set_option maxRecDepth 8000 in
theorem scenarioStep_land :
    scenarioStep (Player.mk 150 898 50 50 0 28 false 2 150 100 false) = restPlayer := by
  decide

set_option maxRecDepth 8000 in
theorem scenarioStep_rest : scenarioStep restPlayer = restPlayer := by decide

theorem scenarioState_air : ∀ n, n ≤ 56 → scenarioState n = airPlayer n := by
  intro n
  induction n with
  | zero =>
    intro _
    show scenarioStep^[0] (mkPlayer 150 100) = airPlayer 0
    rw [Function.iterate_zero]
    unfold mkPlayer airPlayer
    norm_num
  | succ k ih =>
    intro hk
    have hair : scenarioState k = airPlayer k := ih (by omega)
    have hk55 : (k : ℚ) ≤ 55 := by exact_mod_cast (by omega : k ≤ 55)
    have hk0 : (0:ℚ) ≤ (k : ℚ) := Nat.cast_nonneg k
    have hstep : scenarioState (k+1) = scenarioStep (scenarioState k) := by
      show scenarioStep^[k+1] (mkPlayer 150 100) = _
      rw [Function.iterate_succ_apply']
      rfl
    rw [hstep, hair]
    have hairk : airPlayer k
        = Player.mk 150 (100 + (k : ℚ) * ((k : ℚ) + 1) / 4) 50 50 0 ((k : ℚ)/2)
            false 2 150 100 false := rfl
    rw [hairk, scenarioStep_freefall (100 + (k : ℚ) * ((k : ℚ) + 1) / 4) ((k : ℚ)/2)
      (by positivity) (by positivity)
      (by nlinarith [mul_nonneg hk0 (by linarith : (0:ℚ) ≤ 55 - (k:ℚ))])]
    unfold airPlayer
    congr 1
    · push_cast; ring
    · push_cast; ring

theorem scenarioState_rest : ∀ k : ℕ, scenarioState (57 + k) = restPlayer := by
  intro k
  induction k with
  | zero =>
    have h56 := scenarioState_air 56 (by omega)
    have hstep : scenarioState 57 = scenarioStep (scenarioState 56) := by
      show scenarioStep^[57] (mkPlayer 150 100) = _
      rw [show (57 : ℕ) = 56 + 1 from rfl, Function.iterate_succ_apply']
      rfl
    show scenarioState 57 = restPlayer
    rw [hstep, h56,
      show airPlayer 56 = Player.mk 150 898 50 50 0 28 false 2 150 100 false from
        by unfold airPlayer; norm_num,
      scenarioStep_land]
  | succ k ih =>
    have hstep : scenarioState (57 + (k+1)) = scenarioStep (scenarioState (57 + k)) := by
      show scenarioStep^[57 + (k+1)] (mkPlayer 150 100) = _
      rw [show 57 + (k+1) = (57 + k) + 1 from rfl, Function.iterate_succ_apply']
      rfl
    rw [hstep, ih, scenarioStep_rest]

/-- C1: no tunneling through a platform from above, plus the concrete
free-fall scenario.  First conjunct: whenever the state entering the
movement phase is falling or stationary and some platform passes the
landing test (horizontal overlap, current bottom at or above its top,
tentative bottom at or below its top), the tick ends with the actor's
bottom exactly on the top of a platform passing that test, vertical
velocity 0 and grounded true (platform tops within the world assumed, as
in the level).  Remaining conjuncts: from (150,100) with no input in the
2000×1000 world over the floor platform (0,950,2000,50), the landing tick
is tick 57 — bottom exactly 950, velocity zeroed exactly there (it is n/2
on every earlier tick), the state is at rest from then on, and the top y
never exceeds 900. -/
theorem no_tunneling_and_rest :
    (∀ (p : Player) (inp : Input) (platforms : List Objekt)
        (temp : Option Objekt) (ww wh : ℚ),
      0 ≤ (preMovePlayer p inp).velocity_y →
      (∀ plat ∈ platforms ++ temp.toList,
        (preMovePlayer p inp).height ≤ plat.y ∧ plat.y ≤ wh) →
      (∃ plat ∈ platforms ++ temp.toList, CanLandOn (preMovePlayer p inp) plat) →
      ∃ plat ∈ platforms ++ temp.toList, CanLandOn (preMovePlayer p inp) plat ∧
        (p.update inp platforms temp ww wh).y
          + (p.update inp platforms temp ww wh).height = plat.y ∧
        (p.update inp platforms temp ww wh).velocity_y = 0 ∧
        (p.update inp platforms temp ww wh).on_ground = true) ∧
    ((scenarioState 57).y + (scenarioState 57).height = 950 ∧
      (scenarioState 57).velocity_y = 0 ∧ (scenarioState 57).on_ground = true) ∧
    (∀ n, 57 ≤ n → scenarioState n = scenarioState 57) ∧
    (∀ n, n < 57 → (scenarioState n).velocity_y = (n : ℚ) / 2) ∧
    (∀ n, (scenarioState n).y ≤ 900) := by
  have h57 : scenarioState 57 = restPlayer := scenarioState_rest 0
  refine ⟨?_, ?_, ?_, ?_, ?_⟩
  · intro p inp platforms temp ww wh hvy hbounds hex
    obtain ⟨hv0, hog, plat, hmem, hcan, hny⟩ :=
      moveAndLand_lands (preMovePlayer p inp) platforms temp hvy hex
    obtain ⟨hb1, hb2⟩ := hbounds plat hmem
    have hMh : ((preMovePlayer p inp).moveAndLand platforms temp).height
        = (preMovePlayer p inp).height := rfl
    have hMy : 0 ≤ ((preMovePlayer p inp).moveAndLand platforms temp).y := by
      linarith
    have hMyh : ((preMovePlayer p inp).moveAndLand platforms temp).y
        + ((preMovePlayer p inp).moveAndLand platforms temp).height ≤ wh := by
      rw [hMh]; linarith
    obtain ⟨cy, cvy, cog⟩ := clampWorld_y_id
      ((preMovePlayer p inp).moveAndLand platforms temp) ww wh hMy hMyh
    obtain ⟨-, -, -, -, -, r6, r7, r8⟩ := refillJumps_pres
      (((preMovePlayer p inp).moveAndLand platforms temp).clampWorld ww wh)
    have hH : (p.update inp platforms temp ww wh).height
        = (preMovePlayer p inp).height :=
      (update_pres p inp platforms temp ww wh).2.1.trans
        (preMovePlayer_pres p inp).2.1.symm
    have hY : (p.update inp platforms temp ww wh).y
        = ((preMovePlayer p inp).moveAndLand platforms temp).y := by
      unfold Player.update
      exact r6.trans cy
    refine ⟨plat, hmem, hcan, ?_, ?_, ?_⟩
    · rw [hY, hH]
      exact hny
    · unfold Player.update
      rw [r7, cvy]
      exact hv0
    · unfold Player.update
      rw [r8, cog]
      exact hog
  · rw [h57]
    refine ⟨by norm_num [restPlayer], rfl, rfl⟩
  · intro n hn
    obtain ⟨k, rfl⟩ : ∃ k, n = 57 + k := ⟨n - 57, by omega⟩
    rw [scenarioState_rest k, h57]
  · intro n hn
    rw [scenarioState_air n (by omega)]
    rfl
  · intro n
    by_cases hn : n ≤ 56
    · rw [scenarioState_air n hn]
      have hq : (n : ℚ) ≤ 56 := by exact_mod_cast hn
      have h0 : (0:ℚ) ≤ (n:ℚ) := Nat.cast_nonneg n
      show 100 + (n : ℚ) * ((n : ℚ) + 1) / 4 ≤ 900
      nlinarith [mul_nonneg h0 (by linarith : (0:ℚ) ≤ 56 - (n:ℚ))]
    · obtain ⟨k, rfl⟩ : ∃ k, n = 57 + k := ⟨n - 57, by omega⟩
      rw [scenarioState_rest k]
      norm_num [restPlayer]

set_option maxRecDepth 8000 in
/-- Witness for C1: the landing tick of the scenario, instantiating the
no-tunneling conjunct at the tick-56 state (y = 898, vy = 28). -/
theorem no_tunneling_and_rest_w :
    ∃ plat ∈ scenarioPlatforms ++ (none : Option Objekt).toList,
      CanLandOn (preMovePlayer
        (Player.mk 150 898 50 50 0 28 false 2 150 100 false) noInput) plat ∧
      ((Player.mk 150 898 50 50 0 28 false 2 150 100 false).update noInput
          scenarioPlatforms none 2000 1000).y
        + ((Player.mk 150 898 50 50 0 28 false 2 150 100 false).update noInput
            scenarioPlatforms none 2000 1000).height = plat.y ∧
      ((Player.mk 150 898 50 50 0 28 false 2 150 100 false).update noInput
          scenarioPlatforms none 2000 1000).velocity_y = 0 ∧
      ((Player.mk 150 898 50 50 0 28 false 2 150 100 false).update noInput
          scenarioPlatforms none 2000 1000).on_ground = true :=
  no_tunneling_and_rest.1 (Player.mk 150 898 50 50 0 28 false 2 150 100 false)
    noInput scenarioPlatforms none 2000 1000 (by decide) (by decide) (by decide)
